import Mathlib

/-!
Verification of the embedded SQLite data-access layer of the
"Building Professional Dashboards with Python and Tkinter" repository.

The definitions below are a shallow embedding of the `DatabaseManager`
components of `chapters/chapter07-database-integration/basic_database.py`
(generic parameterized CRUD over `users` / `products` / `orders`),
of the join queries of
`chapters/chapter07-database-integration/database_dashboard.py`,
and of `DataManager.get_sales_summary` of
`chapters/chapter10-complete-professional-dashboard/main.py`.

A SQLite database is modelled as a list of named tables plus a list of
named indexes; each table stores its column specifications (UNIQUE /
NOT NULL / DEFAULT, as written in the `CREATE TABLE` statements), an
AUTOINCREMENT counter, and its rows as (rowid, name-keyed mapping)
pairs (the Python code sets `row_factory = sqlite3.Row`, so rows are
name-addressable).  REAL values are modelled as rationals.  Fallible
operations return `Except DbError`; SQLite statement-level atomicity
(a failed statement leaves the database unchanged, and `commit` is
only reached on success) is reflected by returning only an error and
no new state on failure.
-/

namespace Dashboards

/-- SQLite storage values: NULL, INTEGER, REAL (modelled as `Rat`), TEXT. -/
inductive Value where
  | null : Value
  | int : Int → Value
  | real : Rat → Value
  | text : String → Value
  deriving DecidableEq, Repr

/-- SQL `=` comparison as used in WHERE clauses and JOIN conditions:
`NULL` compares false against everything (including `NULL`), and
INTEGER and REAL compare numerically. -/
def sqlEq : Value → Value → Bool
  | Value.null, _ => false
  | _, Value.null => false
  | Value.int i, Value.int j => i = j
  | Value.int i, Value.real q => (i : Rat) = q
  | Value.real q, Value.int j => q = (j : Rat)
  | Value.real p, Value.real q => p = q
  | Value.text s, Value.text t => s = t
  | _, _ => false

/-- A name-addressable row or field mapping (Python `dict` / `sqlite3.Row`).
Python dict keys are unique; theorems assume `Nodup` keys where needed. -/
abbrev Row := List (String × Value)

/-- First value bound to key `k` in a name-keyed association list. -/
def alookup {α : Type} (k : String) : List (String × α) → Option α
  | [] => none
  | p :: ps => if p.1 = k then some p.2 else alookup k ps

/-- A column default, as written in the `CREATE TABLE` statements. -/
inductive DefaultExpr where
  | lit : Value → DefaultExpr
  | currentTimestamp : DefaultExpr
  deriving DecidableEq, Repr

/-- One column of a `CREATE TABLE` statement (the implicit
`id INTEGER PRIMARY KEY AUTOINCREMENT` column is kept separate). -/
structure ColumnSpec where
  name : String
  unique : Bool
  notNull : Bool
  dflt : Option DefaultExpr
  deriving DecidableEq, Repr

/-- A table: its declared columns, the AUTOINCREMENT counter (next rowid),
and the stored rows as (rowid, full name-keyed row) pairs. -/
structure Table where
  columns : List ColumnSpec
  nextId : Int
  rows : List (Int × Row)
  deriving DecidableEq, Repr

/-- The database: named tables plus named indexes (an index records the
table it is on; the chapters never query by index, so no further index
state is needed). -/
structure Database where
  tables : List (String × Table)
  indexes : List (String × String)
  deriving DecidableEq, Repr

/-- Replace the table bound to name `n` (all other tables untouched). -/
def Database.setTable (db : Database) (n : String) (t : Table) : Database :=
  { db with tables := db.tables.map (fun p => if p.1 = n then (p.1, t) else p) }

/-- The error taxonomy relevant to the claims: `sqlite3.IntegrityError`
(constraint violation), `sqlite3.OperationalError` (syntax error, unknown
table or column, datatype mismatch), and the spec's `ValidationError`
(which `crud_operations.py` defines for form validation). -/
inductive DbError where
  | integrityError : DbError
  | operationalError : DbError
  | validationError : DbError
  deriving DecidableEq, Repr

/-- A column name is addressable in a table if it is the implicit `id`
primary key or one of the declared columns. -/
def Table.hasColumn (t : Table) (k : String) : Bool :=
  k = "id" || t.columns.any (fun c => c.name = k)

/-! ### SQL text building

`insert_record`, `update_record` and `delete_record` build their SQL text
with f-strings from the table name and the mapping *keys* only; the mapping
*values* are passed separately to `cursor.execute` as bound parameters. -/

/-- `', '.join(...)` -/
def joinComma (l : List String) : String := String.intercalate ", " l

/-- `' AND '.join(...)` -/
def joinAnd (l : List String) : String := String.intercalate " AND " l

/-- The SQL text built by `insert_record` (basic_database.py lines 134-136):
`INSERT INTO <table> (<columns>) VALUES (<placeholders>)`. -/
def insertQuery (table : String) (keys : List String) : String :=
  "INSERT INTO " ++ table ++ " (" ++ joinComma keys ++ ") VALUES (" ++
    joinComma (keys.map (fun _ => "?")) ++ ")"

/-- The (SQL text, bound parameter list) pair that `insert_record` hands to
`execute_query`: the text is built from the keys of `data` only, and the
values of `data` appear only in the parameter list. -/
def insertRecordSQL (table : String) (data : Row) : String × List Value :=
  (insertQuery table (data.map Prod.fst), data.map Prod.snd)

/-- The SQL text built by `update_record` (basic_database.py lines 176-178):
`UPDATE <table> SET <k = ?, ...> WHERE <k = ? AND ...>`. -/
def updateQuery (table : String) (dataKeys condKeys : List String) : String :=
  "UPDATE " ++ table ++ " SET " ++ joinComma (dataKeys.map (fun k => k ++ " = ?")) ++
    " WHERE " ++ joinAnd (condKeys.map (fun k => k ++ " = ?"))

/-- The SQL text built by `delete_record` (basic_database.py lines 195-196):
`DELETE FROM <table> WHERE <k = ? AND ...>`. -/
def deleteQuery (table : String) (condKeys : List String) : String :=
  "DELETE FROM " ++ table ++ " WHERE " ++ joinAnd (condKeys.map (fun k => k ++ " = ?"))

/-! ### Statement execution (the SQLite engine on the modelled state)

The Python layer hands the statement shape (table, keys) and the bound
parameter list to `cursor.execute`; the semantics below is that of SQLite
executing such a parameterized statement, with each mutating helper
committing on success (`self.connection.commit()`), and a failed statement
changing nothing (statement-level atomicity). -/

/-- The value a parameterized INSERT stores in column `c`: the bound
parameter when the column is listed, otherwise the declared DEFAULT
(`CURRENT_TIMESTAMP` becomes the current time string), otherwise NULL. -/
def rowValueFor (data : Row) (now : String) (c : ColumnSpec) : Value :=
  match alookup c.name data with
  | some v => v
  | none =>
    match c.dflt with
    | some (DefaultExpr.lit v) => v
    | some DefaultExpr.currentTimestamp => Value.text now
    | none => Value.null

/-- The rowid an INSERT assigns: an explicitly supplied integer id is
honored; an absent or NULL id draws from the AUTOINCREMENT counter; a
non-integer id is a datatype mismatch for `INTEGER PRIMARY KEY`. -/
def assignedId (t : Table) (data : Row) : Option Int :=
  match alookup "id" data with
  | none => some t.nextId
  | some Value.null => some t.nextId
  | some (Value.int i) => some i
  | some _ => none

/-- NOT NULL check for the row an INSERT would store. -/
def Table.notNullInsertViolated (t : Table) (data : Row) (now : String) : Bool :=
  t.columns.any (fun c => c.notNull && (rowValueFor data now c == Value.null))

/-- UNIQUE check for the row an INSERT would store: some UNIQUE column's
new value compares SQL-equal to that column's value in an existing row
(NULLs never conflict, since `sqlEq` is false on NULL). -/
def Table.uniqueInsertViolated (t : Table) (data : Row) (now : String) : Bool :=
  t.columns.any (fun c => c.unique && t.rows.any (fun r =>
    match alookup c.name r.2 with
    | some v => sqlEq (rowValueFor data now c) v
    | none => false))

/-- SQLite executing `INSERT INTO t (keys...) VALUES (?...)` with bound
parameters `data`: unknown columns are an `OperationalError`; constraint
violations are an `IntegrityError` and leave the table unchanged;
otherwise the full row (listed columns from the bound parameters, missing
columns from their defaults) is appended and the rowid returned
(`cursor.lastrowid`). -/
def Table.execInsert (t : Table) (data : Row) (now : String) :
    Except DbError (Table × Int) :=
  if !(data.all (fun kv => t.hasColumn kv.1)) then
    Except.error DbError.operationalError
  else
    match assignedId t data with
    | none => Except.error DbError.operationalError
    | some rid =>
      if t.notNullInsertViolated data now || t.uniqueInsertViolated data now
          || t.rows.any (fun r => r.1 == rid) then
        Except.error DbError.integrityError
      else
        Except.ok ({ t with
          rows := t.rows ++ [(rid, t.columns.map (fun c => (c.name, rowValueFor data now c)))],
          nextId := max t.nextId (rid + 1) }, rid)

/-- `DatabaseManager.insert_record` (basic_database.py lines 132-148, same
code in crud_operations.py): builds `insertRecordSQL table data` and runs
it with the values bound as parameters, committing on success.  For an
empty mapping the built text is the degenerate `INSERT INTO t () VALUES ()`,
which SQLite rejects as a syntax error (`OperationalError`) when parsing,
before any name resolution. -/
def insert_record (db : Database) (table : String) (data : Row) (now : String) :
    Except DbError (Database × Int) :=
  if data.isEmpty then
    Except.error DbError.operationalError
  else
    match alookup table db.tables with
    | none => Except.error DbError.operationalError
    | some t =>
      match t.execInsert data now with
      | Except.error e => Except.error e
      | Except.ok (t2, rid) => Except.ok (db.setTable table t2, rid)

/-- One equality condition `k = ?` of a WHERE clause holding on a stored
row (the implicit `id` addresses the rowid). -/
def condHolds (rid : Int) (fields : Row) (kv : String × Value) : Bool :=
  if kv.1 = "id" then sqlEq (Value.int rid) kv.2
  else
    match alookup kv.1 fields with
    | some v => sqlEq v kv.2
    | none => false

/-- The equality-AND WHERE clause built from a conditions mapping holding
on a stored row; an empty mapping (no WHERE clause emitted by
`select_records`) matches every row. -/
def matchesConds (conds : Row) (r : Int × Row) : Bool :=
  conds.all (condHolds r.1 r.2)

/-- Numeric view of a value (INTEGER and REAL). -/
def Value.numOf : Value → Option Rat
  | Value.int i => some ((i : Rat))
  | Value.real q => some q
  | _ => none

/-- SQLite type ordering for ORDER BY: NULL, then numeric, then TEXT. -/
def Value.typeRank : Value → Nat
  | Value.null => 0
  | Value.int _ => 1
  | Value.real _ => 1
  | Value.text _ => 2

/-- Total comparison on stored values implementing SQLite's ORDER BY:
type rank first, numerics numerically, text lexicographically. -/
def Value.leb (v w : Value) : Bool :=
  if v.typeRank = w.typeRank then
    match v, w with
    | Value.int i, Value.int j => i ≤ j
    | Value.int i, Value.real q => (i : Rat) ≤ q
    | Value.real q, Value.int j => q ≤ ((j : Rat))
    | Value.real p, Value.real q => p ≤ q
    | Value.text s, Value.text t => s ≤ t
    | _, _ => true
  else v.typeRank ≤ w.typeRank

/-- Insertion step of a stable insertion sort on result rows. -/
def insertBy (le : Row → Row → Bool) (x : Row) : List Row → List Row
  | [] => [x]
  | y :: ys => if le x y then x :: y :: ys else y :: insertBy le x ys

/-- Stable insertion sort on result rows (the loose ordering SQLite
guarantees for ORDER BY). -/
def sortBy (le : Row → Row → Bool) : List Row → List Row
  | [] => []
  | x :: xs => insertBy le x (sortBy le xs)

/-- The `order_by` strings passed in the repository are a column name
optionally followed by `DESC`. -/
def parseOrderBy (s : String) : String × Bool :=
  match s.splitOn " " with
  | [c, "DESC"] => (c, true)
  | [c, "desc"] => (c, true)
  | [c] => (c, false)
  | _ => (s, false)

/-- `LIMIT` application.  The source guards with `if limit:`, so a limit
of 0 is falsy and emits no LIMIT clause; a negative SQLite LIMIT also
returns all rows. -/
def applyLimit (limit : Option Int) (l : List Row) : List Row :=
  match limit with
  | none => l
  | some n => if n ≤ 0 then l else l.take n.toNat

/-- A stored row as `SELECT *` returns it: the rowid under `"id"`
followed by the declared columns (rows are name-addressable via
`sqlite3.Row`). -/
def selectRow (r : Int × Row) : Row :=
  ("id", Value.int r.1) :: r.2

/-- `DatabaseManager.select_records` (basic_database.py lines 150-172):
`SELECT * FROM t` plus an equality-AND WHERE clause from `conditions`
(all values bound as parameters), optional ORDER BY and LIMIT
pass-throughs. -/
def select_records (db : Database) (table : String) (conds : Row)
    (orderBy : Option String) (limit : Option Int) : Except DbError (List Row) :=
  match alookup table db.tables with
  | none => Except.error DbError.operationalError
  | some t =>
    if !(conds.all (fun kv => t.hasColumn kv.1)) then
      Except.error DbError.operationalError
    else
      let filtered := (t.rows.filter (matchesConds conds)).map selectRow
      match orderBy with
      | none => Except.ok (applyLimit limit filtered)
      | some ob =>
        let cd := parseOrderBy ob
        if !(t.hasColumn cd.1) then Except.error DbError.operationalError
        else
          let key := fun (r : Row) => (alookup cd.1 r).getD Value.null
          let le := fun (r1 r2 : Row) =>
            if cd.2 then Value.leb (key r2) (key r1) else Value.leb (key r1) (key r2)
          Except.ok (applyLimit limit (sortBy le filtered))

/-- The row an UPDATE's SET clause produces from a stored row: listed
columns take their bound parameter, everything else is untouched
(`SET id = ?` reassigns the rowid). -/
def updatedRow (data : Row) (r : Int × Row) : Int × Row :=
  (match alookup "id" data with
   | some (Value.int i) => i
   | _ => r.1,
   r.2.map (fun kv =>
     match alookup kv.1 data with
     | some v => (kv.1, v)
     | none => kv))

/-- No two values of a UNIQUE column compare SQL-equal (NULLs exempt). -/
def noTwoConflict : List Value → Bool
  | [] => true
  | v :: vs => vs.all (fun w => !(sqlEq v w)) && noTwoConflict vs

/-- Pairwise-distinct rowids (the PRIMARY KEY constraint). -/
def allDistinct : List Int → Bool
  | [] => true
  | x :: xs => xs.all (fun y => !(x == y)) && allDistinct xs

/-- The table-level constraints SQLite enforces, stated over the whole
table: NOT NULL columns hold no NULL, UNIQUE columns hold no two
SQL-equal values, rowids are distinct.  On the states the engine itself
maintains this coincides with SQLite's per-row checking. -/
def Table.constraintsOk (t : Table) : Bool :=
  t.columns.all (fun c =>
    (!c.notNull || t.rows.all (fun r => !((alookup c.name r.2).getD Value.null == Value.null))) &&
    (!c.unique || noTwoConflict (t.rows.map (fun r => (alookup c.name r.2).getD Value.null)))) &&
  allDistinct (t.rows.map Prod.fst)

/-- `DatabaseManager.update_record` (basic_database.py lines 174-191, same
code in crud_operations.py): builds `updateQuery` with all values bound as
parameters and commits on success, returning `cursor.rowcount` (the number
of rows the WHERE clause matched).  An empty `data` mapping builds the
degenerate `UPDATE t SET  WHERE ...` and an empty `conditions` mapping the
degenerate `UPDATE t SET ... WHERE `; SQLite rejects both as syntax errors.
A constraint violation aborts the whole statement with `IntegrityError`
and no row is changed. -/
def update_record (db : Database) (table : String) (data conds : Row) :
    Except DbError (Database × Int) :=
  if data.isEmpty || conds.isEmpty then
    Except.error DbError.operationalError
  else
    match alookup table db.tables with
    | none => Except.error DbError.operationalError
    | some t =>
      if !(data.all (fun kv => t.hasColumn kv.1) && conds.all (fun kv => t.hasColumn kv.1)) then
        Except.error DbError.operationalError
      else
        if !(Table.constraintsOk { t with
            rows := t.rows.map (fun r => if matchesConds conds r then updatedRow data r else r) }) then
          Except.error DbError.integrityError
        else
          Except.ok (db.setTable table { t with
              rows := t.rows.map (fun r => if matchesConds conds r then updatedRow data r else r) },
            ((t.rows.filter (matchesConds conds)).length : Int))

/-- `DatabaseManager.delete_record` (basic_database.py lines 193-208, same
code in crud_operations.py lines 676-688): builds `deleteQuery` — the
`WHERE` keyword is always part of the text — and commits on success,
returning `cursor.rowcount`.  An empty `conditions` mapping builds the
degenerate `DELETE FROM t WHERE `, which SQLite rejects as a syntax error,
so no unconditional delete can be produced. -/
def delete_record (db : Database) (table : String) (conds : Row) :
    Except DbError (Database × Int) :=
  if conds.isEmpty then
    Except.error DbError.operationalError
  else
    match alookup table db.tables with
    | none => Except.error DbError.operationalError
    | some t =>
      if !(conds.all (fun kv => t.hasColumn kv.1)) then
        Except.error DbError.operationalError
      else
        let kept := t.rows.filter (fun r => !(matchesConds conds r))
        Except.ok (db.setTable table { t with rows := kept },
          (((t.rows.length - kept.length : Nat)) : Int))

/-- The connection state visible after an `insert_record` call: on failure
the exception propagates before `commit` and the statement is rolled back,
so the database is exactly as before. -/
def insertState (db : Database) (table : String) (data : Row) (now : String) : Database :=
  match insert_record db table data now with
  | Except.ok p => p.1
  | Except.error _ => db

/-- The connection state visible after a `delete_record` call (unchanged
when the statement fails). -/
def deleteState (db : Database) (table : String) (conds : Row) : Database :=
  match delete_record db table conds with
  | Except.ok p => p.1
  | Except.error _ => db

/-- The connection state visible after an `update_record` call (unchanged
when the statement fails). -/
def updateState (db : Database) (table : String) (data conds : Row) : Database :=
  match update_record db table data conds with
  | Except.ok p => p.1
  | Except.error _ => db

/-! ### Schema creation (chapter 7, `DatabaseManager.create_tables`) -/

/-- `CREATE TABLE IF NOT EXISTS`: a no-op when the table exists, otherwise
an empty table with the given columns and a fresh rowid counter. -/
def createTableIfNotExists (db : Database) (n : String) (cols : List ColumnSpec) : Database :=
  match alookup n db.tables with
  | some _ => db
  | none => { db with tables := db.tables ++ [(n, { columns := cols, nextId := 1, rows := [] })] }

/-- `CREATE INDEX IF NOT EXISTS`: a no-op when the index exists. -/
def createIndexIfNotExists (db : Database) (idx tbl : String) : Database :=
  match alookup idx db.indexes with
  | some _ => db
  | none => { db with indexes := db.indexes ++ [(idx, tbl)] }

/-- The `users` table of basic_database.py (lines 63-74): username and
email UNIQUE NOT NULL, full_name NOT NULL, role DEFAULT 'user',
is_active DEFAULT 1, created_date DEFAULT CURRENT_TIMESTAMP,
last_login nullable. -/
def usersColumns : List ColumnSpec :=
  [⟨"username", true, true, none⟩,
   ⟨"email", true, true, none⟩,
   ⟨"full_name", false, true, none⟩,
   ⟨"role", false, false, some (DefaultExpr.lit (Value.text "user"))⟩,
   ⟨"is_active", false, false, some (DefaultExpr.lit (Value.int 1))⟩,
   ⟨"created_date", false, false, some DefaultExpr.currentTimestamp⟩,
   ⟨"last_login", false, false, none⟩]

/-- The `products` table of basic_database.py (lines 77-87). -/
def productsColumns : List ColumnSpec :=
  [⟨"name", false, true, none⟩,
   ⟨"description", false, false, none⟩,
   ⟨"price", false, true, none⟩,
   ⟨"category", false, false, none⟩,
   ⟨"stock_quantity", false, false, some (DefaultExpr.lit (Value.int 0))⟩,
   ⟨"created_date", false, false, some DefaultExpr.currentTimestamp⟩,
   ⟨"updated_date", false, false, some DefaultExpr.currentTimestamp⟩]

/-- The `orders` table of basic_database.py (lines 90-101).  The FOREIGN
KEY clauses on user_id and product_id are declared but never enforced:
the source never issues `PRAGMA foreign_keys = ON`, and SQLite defaults
to permissive mode, so dangling references are storable. -/
def ordersColumns : List ColumnSpec :=
  [⟨"user_id", false, false, none⟩,
   ⟨"product_id", false, false, none⟩,
   ⟨"quantity", false, true, none⟩,
   ⟨"total_price", false, true, none⟩,
   ⟨"order_date", false, false, some DefaultExpr.currentTimestamp⟩,
   ⟨"status", false, false, some (DefaultExpr.lit (Value.text "pending"))⟩]

/-- `DatabaseManager.create_tables` (basic_database.py lines 58-117):
three `CREATE TABLE IF NOT EXISTS` statements followed by four
`CREATE INDEX IF NOT EXISTS` statements, then commit. -/
def create_tables (db : Database) : Database :=
  let db := createTableIfNotExists db "users" usersColumns
  let db := createTableIfNotExists db "products" productsColumns
  let db := createTableIfNotExists db "orders" ordersColumns
  let db := createIndexIfNotExists db "idx_users_email" "users"
  let db := createIndexIfNotExists db "idx_products_category" "products"
  let db := createIndexIfNotExists db "idx_orders_user_id" "orders"
  createIndexIfNotExists db "idx_orders_status" "orders"

/-- A freshly created (empty) database file. -/
def emptyDb : Database := { tables := [], indexes := [] }

/-! ### The dashboard's tables and join queries
(`chapter07-database-integration/database_dashboard.py`) -/

/-- The dashboard's `users` table (database_dashboard.py lines 46-55). -/
def ddUsersColumns : List ColumnSpec :=
  [⟨"name", false, true, none⟩,
   ⟨"email", true, true, none⟩,
   ⟨"role", false, false, some (DefaultExpr.lit (Value.text "user"))⟩,
   ⟨"created_date", false, false, some DefaultExpr.currentTimestamp⟩]

/-- The dashboard's `products` table (database_dashboard.py lines 58-67). -/
def ddProductsColumns : List ColumnSpec :=
  [⟨"name", false, true, none⟩,
   ⟨"category", false, true, none⟩,
   ⟨"price", false, true, none⟩,
   ⟨"stock", false, false, some (DefaultExpr.lit (Value.int 0))⟩,
   ⟨"created_date", false, false, some DefaultExpr.currentTimestamp⟩]

/-- The dashboard's `orders` table (database_dashboard.py lines 70-81);
foreign keys declared but never enforced (no `PRAGMA foreign_keys`). -/
def ddOrdersColumns : List ColumnSpec :=
  [⟨"user_id", false, false, none⟩,
   ⟨"product_id", false, false, none⟩,
   ⟨"quantity", false, true, none⟩,
   ⟨"total_price", false, true, none⟩,
   ⟨"order_date", false, false, some DefaultExpr.currentTimestamp⟩]

/-- The dashboard's `analytics` table (database_dashboard.py lines 84-91). -/
def ddAnalyticsColumns : List ColumnSpec :=
  [⟨"metric_name", false, true, none⟩,
   ⟨"metric_value", false, true, none⟩,
   ⟨"date_recorded", false, false, some DefaultExpr.currentTimestamp⟩]

/-- `DatabaseDashboard.create_tables` (database_dashboard.py lines 41-96). -/
def dd_create_tables (db : Database) : Database :=
  let db := createTableIfNotExists db "users" ddUsersColumns
  let db := createTableIfNotExists db "products" ddProductsColumns
  let db := createTableIfNotExists db "orders" ddOrdersColumns
  createTableIfNotExists db "analytics" ddAnalyticsColumns

/-- A JOIN condition `o.user_id = u.id`: the stored reference compares
SQL-equal to the candidate rowid (a NULL or dangling reference matches
no row). -/
def fkMatches (v : Option Value) (rid : Int) : Bool :=
  match v with
  | some w => sqlEq w (Value.int rid)
  | none => false

/-- The projection of refresh_orders_table's SELECT list:
`o.id, u.name as user_name, p.name as product_name, o.quantity,
o.total_price, o.order_date`. -/
def joinedOrderRow (orow ur pr : Int × Row) : Row :=
  [("id", Value.int orow.1),
   ("user_name", (alookup "name" ur.2).getD Value.null),
   ("product_name", (alookup "name" pr.2).getD Value.null),
   ("quantity", (alookup "quantity" orow.2).getD Value.null),
   ("total_price", (alookup "total_price" orow.2).getD Value.null),
   ("order_date", (alookup "order_date" orow.2).getD Value.null)]

/-- The INNER JOIN
`orders o JOIN users u ON o.user_id = u.id JOIN products p ON
o.product_id = p.id`: an order row contributes output only when both
references resolve to existing rows. -/
def innerJoinOrders (o u p : Table) : List Row :=
  o.rows.flatMap (fun orow =>
    (u.rows.filter (fun ur => fkMatches (alookup "user_id" orow.2) ur.1)).flatMap (fun ur =>
      (p.rows.filter (fun pr => fkMatches (alookup "product_id" orow.2) pr.1)).map (fun pr =>
        joinedOrderRow orow ur pr)))

/-- The joined query of `DatabaseDashboard.refresh_orders_table`
(database_dashboard.py lines 495-519): the inner join above with
`ORDER BY o.order_date DESC`.  The recent-orders query of
`refresh_analytics` (lines 544-553) is the same join with a narrower
projection and `LIMIT 10`. -/
def refresh_orders_query (db : Database) : Except DbError (List Row) :=
  match alookup "orders" db.tables, alookup "users" db.tables, alookup "products" db.tables with
  | some o, some u, some p =>
    let key := fun (r : Row) => (alookup "order_date" r).getD Value.null
    Except.ok (sortBy (fun r1 r2 => Value.leb (key r2) (key r1)) (innerJoinOrders o u p))
  | _, _, _ => Except.error DbError.operationalError

/-! ### Chapter 10 (`main.py`): sales table and summary aggregates -/

/-- The chapter-10 `users` table (main.py lines 40-50). -/
def ch10UsersColumns : List ColumnSpec :=
  [⟨"username", true, true, none⟩,
   ⟨"password_hash", false, true, none⟩,
   ⟨"email", false, false, none⟩,
   ⟨"role", false, false, some (DefaultExpr.lit (Value.text "user"))⟩,
   ⟨"created_date", false, false, some DefaultExpr.currentTimestamp⟩,
   ⟨"last_login", false, false, none⟩]

/-- The chapter-10 `sales` table (main.py lines 53-63). -/
def salesColumns : List ColumnSpec :=
  [⟨"product_name", false, true, none⟩,
   ⟨"quantity", false, true, none⟩,
   ⟨"price", false, true, none⟩,
   ⟨"sale_date", false, false, some DefaultExpr.currentTimestamp⟩,
   ⟨"region", false, false, none⟩,
   ⟨"salesperson", false, false, none⟩]

/-- The chapter-10 `system_metrics` table (main.py lines 66-73). -/
def systemMetricsColumns : List ColumnSpec :=
  [⟨"metric_name", false, true, none⟩,
   ⟨"metric_value", false, true, none⟩,
   ⟨"timestamp", false, false, some DefaultExpr.currentTimestamp⟩]

/-- The chapter-10 `user_preferences` table (main.py lines 76-84). -/
def userPreferencesColumns : List ColumnSpec :=
  [⟨"user_id", false, false, none⟩,
   ⟨"preference_key", false, true, none⟩,
   ⟨"preference_value", false, false, none⟩]

/-- The SHA-256 hex digest of "admin123"; hashing is outside the data
layer, so the digest is modelled as an opaque text constant. -/
def adminPasswordHash : String := "sha256-hex-of-admin123"

/-- `DatabaseManager.create_default_admin` (main.py lines 95-108): insert
a default admin user only when `SELECT * FROM users WHERE
username = 'admin'` finds nothing; a failure is printed and swallowed. -/
def create_default_admin (db : Database) (now : String) : Database :=
  match alookup "users" db.tables with
  | none => db
  | some t =>
    if t.rows.any (fun r => sqlEq ((alookup "username" r.2).getD Value.null) (Value.text "admin")) then
      db
    else
      match insert_record db "users"
        [("username", Value.text "admin"),
         ("password_hash", Value.text adminPasswordHash),
         ("email", Value.text "admin@company.com"),
         ("role", Value.text "admin")] now with
      | Except.ok p => p.1
      | Except.error _ => db

/-- The chapter-10 `DatabaseManager.create_tables` (main.py lines 35-93):
four `CREATE TABLE IF NOT EXISTS` statements, commit, then the default
admin seed. -/
def ch10_create_tables (db : Database) (now : String) : Database :=
  let db := createTableIfNotExists db "users" ch10UsersColumns
  let db := createTableIfNotExists db "sales" salesColumns
  let db := createTableIfNotExists db "system_metrics" systemMetricsColumns
  let db := createTableIfNotExists db "user_preferences" userPreferencesColumns
  create_default_admin db now

/-- The result shape of `DataManager.get_sales_summary`: the aggregate
SELECT always yields exactly one row, whose four named fields the code
returns as a dict. -/
structure SalesSummary where
  total_sales : Int
  total_revenue : Value
  avg_price : Value
  unique_products : Int
  deriving DecidableEq, Repr

/-- SQL `SUM`: NULL when there is no non-NULL term, else the sum. -/
def sumAgg (terms : List Rat) : Value :=
  if terms.isEmpty then Value.null
  else Value.real (terms.foldl (fun a b => a + b) 0)

/-- SQL `AVG`: NULL when there is no non-NULL term, else the mean. -/
def avgAgg (terms : List Rat) : Value :=
  if terms.isEmpty then Value.null
  else Value.real ((terms.foldl (fun a b => a + b) 0) / (terms.length : Rat))

/-- `DataManager.get_sales_summary` (main.py lines 176-191):
`SELECT COUNT(*), SUM(quantity * price), AVG(price),
COUNT(DISTINCT product_name) FROM sales`, returned as a name-keyed
mapping.  COUNT of an empty table is 0 and SUM/AVG are NULL; DISTINCT
counts distinct non-NULL values. -/
def get_sales_summary (db : Database) : Except DbError SalesSummary :=
  match alookup "sales" db.tables with
  | none => Except.error DbError.operationalError
  | some t =>
    let revTerms := t.rows.filterMap (fun r =>
      match Value.numOf ((alookup "quantity" r.2).getD Value.null),
            Value.numOf ((alookup "price" r.2).getD Value.null) with
      | some q, some p => some (q * p)
      | _, _ => none)
    let priceTerms := t.rows.filterMap (fun r =>
      Value.numOf ((alookup "price" r.2).getD Value.null))
    let names := (t.rows.filterMap (fun r =>
      match (alookup "product_name" r.2).getD Value.null with
      | Value.null => none
      | v => some v)).dedup
    Except.ok { total_sales := (t.rows.length : Int),
                total_revenue := sumAgg revTerms,
                avg_price := avgAgg priceTerms,
                unique_products := (names.length : Int) }

/-- The `SUM(total_price)` headline metric of
`DatabaseDashboard.refresh_overview_metrics` (database_dashboard.py lines
449-451): SQL SUM is NULL on an empty table and the code null-coalesces
it with `or 0`. -/
def total_revenue_metric (db : Database) : Except DbError Rat :=
  match alookup "orders" db.tables with
  | none => Except.error DbError.operationalError
  | some t =>
    let terms := t.rows.filterMap (fun r =>
      Value.numOf ((alookup "total_price" r.2).getD Value.null))
    Except.ok (match sumAgg terms with
      | Value.real q => q
      | _ => 0)

/-! ### Helper lemmas about lookups and table replacement -/

theorem alookup_append_left {α : Type} (k : String) (l1 l2 : List (String × α))
    (h : (alookup k l1).isSome) : alookup k (l1 ++ l2) = alookup k l1 := by
  induction l1 with
  | nil => simp [alookup] at h
  | cons p ps ih =>
    by_cases hp : p.1 = k
    · simp [alookup, hp]
    · simp only [alookup, hp, if_false, List.cons_append] at *
      exact ih h

theorem alookup_append_right {α : Type} (k : String) (l1 l2 : List (String × α))
    (h : alookup k l1 = none) : alookup k (l1 ++ l2) = alookup k l2 := by
  induction l1 with
  | nil => simp
  | cons p ps ih =>
    by_cases hp : p.1 = k
    · simp [alookup, hp] at h
    · simp only [alookup, hp, if_false, List.cons_append] at *
      exact ih h

theorem alookup_map_set_ne (l : List (String × Table)) (n m : String) (t : Table)
    (h : m ≠ n) :
    alookup m (l.map (fun p => if p.1 = n then (p.1, t) else p)) = alookup m l := by
  induction l with
  | nil => rfl
  | cons p ps ih =>
    have hnm : ¬ n = m := fun he => h he.symm
    by_cases hp : p.1 = n
    · simp [alookup, hp, hnm, ih]
    · simp [alookup, hp, ih]

theorem alookup_map_set_self (l : List (String × Table)) (n : String) (t : Table) :
    alookup n (l.map (fun p => if p.1 = n then (p.1, t) else p)) =
      (alookup n l).map (fun _ => t) := by
  induction l with
  | nil => rfl
  | cons p ps ih =>
    by_cases hp : p.1 = n
    · simp [alookup, hp]
    · simp [alookup, hp, ih]

theorem map_fst_set (l : List (String × Table)) (n : String) (t : Table) :
    (l.map (fun p => if p.1 = n then (p.1, t) else p)).map Prod.fst = l.map Prod.fst := by
  induction l with
  | nil => rfl
  | cons p ps ih =>
    by_cases hp : p.1 = n
    · simp [hp, ih]
    · simp [hp, ih]

theorem setTable_lookup_ne (db : Database) (n m : String) (t : Table) (h : m ≠ n) :
    alookup m (db.setTable n t).tables = alookup m db.tables :=
  alookup_map_set_ne db.tables n m t h

theorem setTable_lookup_self (db : Database) (n : String) (t : Table) :
    alookup n (db.setTable n t).tables = (alookup n db.tables).map (fun _ => t) :=
  alookup_map_set_self db.tables n t

theorem setTable_indexes (db : Database) (n : String) (t : Table) :
    (db.setTable n t).indexes = db.indexes := rfl

theorem setTable_names (db : Database) (n : String) (t : Table) :
    (db.setTable n t).tables.map Prod.fst = db.tables.map Prod.fst :=
  map_fst_set db.tables n t

/-- Destructuring a successful `insert_record` into its component facts. -/
theorem insert_record_ok (db db' : Database) (table : String) (data : Row)
    (now : String) (rid : Int)
    (h : insert_record db table data now = Except.ok (db', rid)) :
    ∃ t t2, alookup table db.tables = some t ∧
      t.execInsert data now = Except.ok (t2, rid) ∧ db' = db.setTable table t2 := by
  unfold insert_record at h
  split at h
  · exact absurd h (by simp)
  · split at h
    · exact absurd h (by simp)
    · rename_i t ht
      split at h
      · exact absurd h (by simp)
      · rename_i t2 rid2 hp
        injection h with h1
        injection h1 with ha hb
        exact ⟨t, t2, ht, by rw [hp, hb], ha.symm⟩

/-- Destructuring a successful `Table.execInsert` into its component facts. -/
theorem execInsert_ok (t t2 : Table) (data : Row) (now : String) (rid : Int)
    (h : t.execInsert data now = Except.ok (t2, rid)) :
    data.all (fun kv => t.hasColumn kv.1) = true ∧
    assignedId t data = some rid ∧
    t.notNullInsertViolated data now = false ∧
    t.uniqueInsertViolated data now = false ∧
    t.rows.any (fun r => r.1 == rid) = false ∧
    t2 = { t with
      rows := t.rows ++ [(rid, t.columns.map (fun c => (c.name, rowValueFor data now c)))],
      nextId := max t.nextId (rid + 1) } := by
  unfold Table.execInsert at h
  split at h
  · exact absurd h (by simp)
  · rename_i hall
    split at h
    · exact absurd h (by simp)
    · rename_i rid' hassign
      split at h
      · exact absurd h (by simp)
      · rename_i hchk
        injection h with h1
        injection h1 with ha hb
        subst hb
        simp only [Bool.not_eq_true] at hall
        simp only [Bool.or_eq_true, not_or, Bool.not_eq_true] at hchk
        refine ⟨by simpa using hall, hassign, hchk.1.1, hchk.1.2, hchk.2, ha.symm⟩

/-! ### Claims C6, C8 and C10 -/

/-- Claim C6 counterexample: calling insert with an empty fields mapping
does NOT fail with `ValidationError` — the code builds the degenerate SQL
text `INSERT INTO products () VALUES ()` and its execution fails with the
driver's syntax error (`OperationalError`). -/
theorem empty_mapping_no_validation_error_cex :
    (insertRecordSQL "products" []).1 = "INSERT INTO products () VALUES ()" ∧
    insert_record (create_tables emptyDb) "products" [] "t0" =
      Except.error DbError.operationalError ∧
    DbError.operationalError ≠ DbError.validationError := by
  refine ⟨rfl, rfl, by decide⟩

/-- Claim C6 (amended): calling insert or update with an empty fields
mapping builds degenerate SQL whose execution fails with the driver's
operational (syntax) error — not `ValidationError`, which this layer never
raises — and writes nothing. -/
theorem empty_mapping_operational_error (db : Database) (table : String)
    (now : String) (conds : Row) :
    insert_record db table [] now = Except.error DbError.operationalError ∧
    update_record db table [] conds = Except.error DbError.operationalError ∧
    insertState db table [] now = db ∧
    updateState db table [] conds = db :=
  ⟨rfl, rfl, rfl, rfl⟩

/-- Claim C6 witness: the amended statement at a concrete database. -/
theorem empty_mapping_operational_error_witness :
    insert_record (create_tables emptyDb) "users" [] "t0" =
      Except.error DbError.operationalError ∧
    update_record (create_tables emptyDb) "users" [] [("id", Value.int 1)] =
      Except.error DbError.operationalError ∧
    insertState (create_tables emptyDb) "users" [] "t0" = create_tables emptyDb ∧
    updateState (create_tables emptyDb) "users" [] [("id", Value.int 1)] = create_tables emptyDb :=
  empty_mapping_operational_error (create_tables emptyDb) "users" "t0" [("id", Value.int 1)]

/-- Claim C10: the generic delete always emits the `WHERE` keyword, so an
empty conditions mapping yields the degenerate statement
`DELETE FROM <table> WHERE ` which fails (with the driver's syntax error)
rather than deleting all rows, and the database is unchanged. -/
theorem delete_empty_conditions_fails (db : Database) (table : String) :
    deleteQuery table [] = "DELETE FROM " ++ table ++ " WHERE " ++ "" ∧
    delete_record db table [] = Except.error DbError.operationalError ∧
    deleteState db table [] = db :=
  ⟨rfl, rfl, rfl⟩

/-- Claim C10 witness: the statement at a concrete database and table. -/
theorem delete_empty_conditions_fails_witness :
    deleteQuery "users" [] = "DELETE FROM " ++ "users" ++ " WHERE " ++ "" ∧
    delete_record (create_tables emptyDb) "users" [] = Except.error DbError.operationalError ∧
    deleteState (create_tables emptyDb) "users" [] = create_tables emptyDb :=
  delete_empty_conditions_fails (create_tables emptyDb) "users"

/-- Claim C8: the sales summary aggregate on a table with zero rows
returns the defined null-safe structure — COUNT fields 0, SUM and AVG
NULL, all four fields present — and returns it normally (no exception). -/
theorem sales_summary_empty_table_safe (db : Database) (t : Table)
    (ht : alookup "sales" db.tables = some t) (he : t.rows = []) :
    get_sales_summary db = Except.ok
      { total_sales := 0, total_revenue := Value.null,
        avg_price := Value.null, unique_products := 0 } := by
  obtain ⟨cols, nid, rows⟩ := t
  change rows = [] at he
  subst he
  unfold get_sales_summary
  rw [ht]
  rfl

/-- The chapter-10 database right after startup schema creation (the sales
table exists and is empty; the admin seed touches only `users`). -/
def ch10Db : Database := ch10_create_tables emptyDb "t0"

/-- Claim C8 witness: the summary on the freshly created chapter-10
database, whose `sales` table is empty. -/
theorem sales_summary_empty_table_safe_witness :
    get_sales_summary ch10Db = Except.ok
      { total_sales := 0, total_revenue := Value.null,
        avg_price := Value.null, unique_products := 0 } :=
  sales_summary_empty_table_safe ch10Db
    { columns := salesColumns, nextId := 1, rows := [] } (by decide) rfl

/-! ### Claim C4: idempotent schema creation -/

theorem createTable_indexes (db : Database) (n : String) (cols : List ColumnSpec) :
    (createTableIfNotExists db n cols).indexes = db.indexes := by
  unfold createTableIfNotExists
  split <;> rfl

theorem createIndex_tables (db : Database) (i tb : String) :
    (createIndexIfNotExists db i tb).tables = db.tables := by
  unfold createIndexIfNotExists
  split <;> rfl

theorem createTable_of_some (db : Database) (n : String) (cols : List ColumnSpec)
    (h : (alookup n db.tables).isSome) : createTableIfNotExists db n cols = db := by
  unfold createTableIfNotExists
  obtain ⟨t, ht⟩ := Option.isSome_iff_exists.mp h
  rw [ht]

theorem createIndex_of_some (db : Database) (i tb : String)
    (h : (alookup i db.indexes).isSome) : createIndexIfNotExists db i tb = db := by
  unfold createIndexIfNotExists
  obtain ⟨t, ht⟩ := Option.isSome_iff_exists.mp h
  rw [ht]

theorem createTable_lookup_isSome (db : Database) (n : String) (cols : List ColumnSpec) :
    (alookup n (createTableIfNotExists db n cols).tables).isSome := by
  unfold createTableIfNotExists
  cases hx : alookup n db.tables with
  | some t => simp [hx]
  | none =>
    show (alookup n (db.tables ++ [(n, _)])).isSome
    rw [alookup_append_right n _ _ hx]
    simp [alookup]

theorem createTable_lookup_mono (db : Database) (n m : String) (cols : List ColumnSpec)
    (h : (alookup m db.tables).isSome) :
    (alookup m (createTableIfNotExists db n cols).tables).isSome := by
  unfold createTableIfNotExists
  cases hx : alookup n db.tables with
  | some t => exact h
  | none =>
    show (alookup m (db.tables ++ [(n, _)])).isSome
    rw [alookup_append_left m _ _ h]
    exact h

theorem createIndex_lookup_isSome (db : Database) (i tb : String) :
    (alookup i (createIndexIfNotExists db i tb).indexes).isSome := by
  unfold createIndexIfNotExists
  cases hx : alookup i db.indexes with
  | some t => simp [hx]
  | none =>
    show (alookup i (db.indexes ++ [(i, tb)])).isSome
    rw [alookup_append_right i _ _ hx]
    simp [alookup]

theorem createIndex_lookup_mono (db : Database) (i j tb : String)
    (h : (alookup j db.indexes).isSome) :
    (alookup j (createIndexIfNotExists db i tb).indexes).isSome := by
  unfold createIndexIfNotExists
  cases hx : alookup i db.indexes with
  | some t => exact h
  | none =>
    show (alookup j (db.indexes ++ [(i, tb)])).isSome
    rw [alookup_append_left j _ _ h]
    exact h

theorem createIndex_table_lookup_mono (db : Database) (i tb m : String)
    (h : (alookup m db.tables).isSome) :
    (alookup m (createIndexIfNotExists db i tb).tables).isSome := by
  rw [createIndex_tables]
  exact h

theorem createTable_index_lookup_mono (db : Database) (n : String) (cols : List ColumnSpec)
    (j : String) (h : (alookup j db.indexes).isSome) :
    (alookup j (createTableIfNotExists db n cols).indexes).isSome := by
  rw [createTable_indexes]
  exact h

/-- One further run of `create_tables` is the identity on any state it has
already produced: every `CREATE ... IF NOT EXISTS` finds its object. -/
theorem create_tables_idem (db : Database) :
    create_tables (create_tables db) = create_tables db := by
  have hu : (alookup "users" (create_tables db).tables).isSome := by
    unfold create_tables
    rw [createIndex_tables, createIndex_tables, createIndex_tables, createIndex_tables]
    exact createTable_lookup_mono _ _ _ _ (createTable_lookup_mono _ _ _ _
      (createTable_lookup_isSome _ _ _))
  have hp : (alookup "products" (create_tables db).tables).isSome := by
    unfold create_tables
    rw [createIndex_tables, createIndex_tables, createIndex_tables, createIndex_tables]
    exact createTable_lookup_mono _ _ _ _ (createTable_lookup_isSome _ _ _)
  have ho : (alookup "orders" (create_tables db).tables).isSome := by
    unfold create_tables
    rw [createIndex_tables, createIndex_tables, createIndex_tables, createIndex_tables]
    exact createTable_lookup_isSome _ _ _
  have hi1 : (alookup "idx_users_email" (create_tables db).indexes).isSome := by
    unfold create_tables
    exact createIndex_lookup_mono _ _ _ _ (createIndex_lookup_mono _ _ _ _
      (createIndex_lookup_mono _ _ _ _ (createIndex_lookup_isSome _ _ _)))
  have hi2 : (alookup "idx_products_category" (create_tables db).indexes).isSome := by
    unfold create_tables
    exact createIndex_lookup_mono _ _ _ _ (createIndex_lookup_mono _ _ _ _
      (createIndex_lookup_isSome _ _ _))
  have hi3 : (alookup "idx_orders_user_id" (create_tables db).indexes).isSome := by
    unfold create_tables
    exact createIndex_lookup_mono _ _ _ _ (createIndex_lookup_isSome _ _ _)
  have hi4 : (alookup "idx_orders_status" (create_tables db).indexes).isSome := by
    unfold create_tables
    exact createIndex_lookup_isSome _ _ _
  show createIndexIfNotExists (createIndexIfNotExists (createIndexIfNotExists
      (createIndexIfNotExists (createTableIfNotExists (createTableIfNotExists
        (createTableIfNotExists (create_tables db) "users" usersColumns)
        "products" productsColumns) "orders" ordersColumns)
      "idx_users_email" "users") "idx_products_category" "products")
      "idx_orders_user_id" "orders") "idx_orders_status" "orders" = create_tables db
  rw [createTable_of_some _ _ _ hu, createTable_of_some _ _ _ hp,
      createTable_of_some _ _ _ ho, createIndex_of_some _ _ _ hi1,
      createIndex_of_some _ _ _ hi2, createIndex_of_some _ _ _ hi3,
      createIndex_of_some _ _ _ hi4]

/-- Claim C4: schema initialization is idempotent — after one call to
`create_tables`, any number of further calls leaves the database (tables,
their column sets, the indexes, and all row data) exactly as after the
first call. -/
theorem create_tables_idempotent (db : Database) (n : Nat) :
    create_tables^[n] (create_tables db) = create_tables db := by
  induction n with
  | zero => rfl
  | succ k ih => rw [Function.iterate_succ_apply', ih, create_tables_idem]

/-- Claim C4 witness: three further runs on a fresh database change
nothing. -/
theorem create_tables_idempotent_witness :
    create_tables^[3] (create_tables emptyDb) = create_tables emptyDb :=
  create_tables_idempotent emptyDb 3

/-! ### Claim C1: values only ever bound, schema preserved -/

/-- Claim C1: for every field mapping accepted by insert — including
values containing quotes, semicolons or DROP TABLE fragments — the SQL
text depends only on the table name and the field names (any mapping with
the same keys yields the same text), the values travel only in the bound
parameter list, and after the insert the set of tables, every table's
column set, and the indexes are unchanged: the values were stored as
ordinary data. -/
theorem insert_values_only_bound_schema_preserved
    (db db' : Database) (table : String) (data : Row) (now : String) (rid : Int)
    (h : insert_record db table data now = Except.ok (db', rid)) :
    (∀ data2 : Row, data2.map Prod.fst = data.map Prod.fst →
        (insertRecordSQL table data2).1 = (insertRecordSQL table data).1) ∧
    (insertRecordSQL table data).2 = data.map Prod.snd ∧
    db'.tables.map Prod.fst = db.tables.map Prod.fst ∧
    (∀ name, (alookup name db'.tables).map Table.columns =
        (alookup name db.tables).map Table.columns) ∧
    db'.indexes = db.indexes := by
  obtain ⟨t, t2, ht, hexec, hdb⟩ := insert_record_ok db db' table data now rid h
  obtain ⟨-, -, -, -, -, ht2⟩ := execInsert_ok t t2 data now rid hexec
  subst hdb
  refine ⟨?_, rfl, setTable_names db table t2, ?_, rfl⟩
  · intro data2 hk
    unfold insertRecordSQL insertQuery
    rw [hk]
  · intro name
    by_cases hn : name = table
    · subst hn
      rw [setTable_lookup_self, ht]
      simp [ht2]
    · rw [setTable_lookup_ne db table name t2 hn]

/-- The chapter-7 database at startup. -/
def c1db : Database := create_tables emptyDb

/-- A product whose name holds a quote, a parenthesis-close, a semicolon
and a DROP TABLE fragment. -/
def c1data : Row :=
  [("name", Value.text "Widget); DROP TABLE users; -- "),
   ("price", Value.real 5)]

/-- The state after inserting the hostile product name. -/
def c1db' : Database := insertState c1db "products" c1data "t0"

/-- Claim C1 witness: the hostile insert succeeds as ordinary data; same
SQL text for any equal-keyed mapping, values only in the parameter list,
tables, column sets and indexes untouched. -/
theorem insert_values_only_bound_schema_preserved_witness :
    (∀ data2 : Row, data2.map Prod.fst = c1data.map Prod.fst →
        (insertRecordSQL "products" data2).1 = (insertRecordSQL "products" c1data).1) ∧
    (insertRecordSQL "products" c1data).2 = c1data.map Prod.snd ∧
    c1db'.tables.map Prod.fst = c1db.tables.map Prod.fst ∧
    (∀ name, (alookup name c1db'.tables).map Table.columns =
        (alookup name c1db.tables).map Table.columns) ∧
    c1db'.indexes = c1db.indexes :=
  insert_values_only_bound_schema_preserved c1db c1db' "products" c1data "t0" 1 (by rfl)

/-! ### Claim C2: uniqueness violation fails atomically -/

/-- Claim C2: when the `users` table already holds a row whose value in a
UNIQUE column (username or email) equals the incoming mapping's value for
that column, the insert fails with `IntegrityError` and the visible
database state is unchanged — no partial write. -/
theorem duplicate_user_insert_integrity_error
    (db : Database) (t : Table) (data : Row) (now : String) (c : ColumnSpec)
    (hc : c ∈ t.columns) (hcu : c.unique = true)
    (ht : alookup "users" db.tables = some t)
    (hne : data ≠ [])
    (hvalid : data.all (fun kv => t.hasColumn kv.1) = true)
    (hNoId : alookup "id" data = none)
    (r : Int × Row) (hr : r ∈ t.rows) (u : Value)
    (hu : alookup c.name r.2 = some u)
    (hdup : sqlEq (rowValueFor data now c) u = true) :
    insert_record db "users" data now = Except.error DbError.integrityError ∧
    insertState db "users" data now = db := by
  have huniq : t.uniqueInsertViolated data now = true := by
    unfold Table.uniqueInsertViolated
    rw [List.any_eq_true]
    refine ⟨c, hc, ?_⟩
    rw [hcu, Bool.true_and, List.any_eq_true]
    refine ⟨r, hr, ?_⟩
    rw [hu]
    exact hdup
  have hexec : t.execInsert data now = Except.error DbError.integrityError := by
    unfold Table.execInsert
    rw [if_neg (by rw [hvalid]; simp)]
    have hassign : assignedId t data = some t.nextId := by
      unfold assignedId
      rw [hNoId]
    rw [hassign]
    show (if t.notNullInsertViolated data now || t.uniqueInsertViolated data now
        || t.rows.any (fun r => r.1 == t.nextId) then _ else _) = _
    rw [if_pos (by rw [huniq]; simp)]
  have hmain : insert_record db "users" data now = Except.error DbError.integrityError := by
    unfold insert_record
    rw [if_neg (fun hh => hne (List.isEmpty_iff.mp hh)), ht]
    show (match t.execInsert data now with
      | Except.error e => Except.error e
      | Except.ok (t2, rid) => Except.ok (db.setTable "users" t2, rid)) = _
    rw [hexec]
  refine ⟨hmain, ?_⟩
  unfold insertState
  rw [hmain]

/-- The chapter-7 database holding one user "alice". -/
def c2db : Database :=
  insertState (create_tables emptyDb) "users"
    [("username", Value.text "alice"), ("email", Value.text "a@x.com"),
     ("full_name", Value.text "Alice")] "t0"

/-- A second user with the same username and a fresh email. -/
def c2data : Row :=
  [("username", Value.text "alice"), ("email", Value.text "b@x.com"),
   ("full_name", Value.text "Alice B")]

/-- The users table stored in `c2db`. -/
def c2usersTable : Table :=
  { columns := usersColumns, nextId := 2,
    rows := [(1, [("username", Value.text "alice"), ("email", Value.text "a@x.com"),
                  ("full_name", Value.text "Alice"), ("role", Value.text "user"),
                  ("is_active", Value.int 1), ("created_date", Value.text "t0"),
                  ("last_login", Value.null)])] }

/-- Claim C2 witness: inserting a duplicate "alice" fails with
`IntegrityError` and leaves the database exactly as it was. -/
theorem duplicate_user_insert_integrity_error_witness :
    insert_record c2db "users" c2data "t1" = Except.error DbError.integrityError ∧
    insertState c2db "users" c2data "t1" = c2db :=
  duplicate_user_insert_integrity_error c2db c2usersTable c2data "t1"
    ⟨"username", true, true, none⟩ (by decide) rfl (by rfl) (by decide) (by rfl) (by rfl)
    (1, [("username", Value.text "alice"), ("email", Value.text "a@x.com"),
         ("full_name", Value.text "Alice"), ("role", Value.text "user"),
         ("is_active", Value.int 1), ("created_date", Value.text "t0"),
         ("last_login", Value.null)])
    (by decide) (Value.text "alice") (by rfl) (by rfl)

/-! ### Claim C3: insert / select round-trip -/

theorem alookup_none_forall {α : Type} (k : String) (l : List (String × α))
    (h : alookup k l = none) : ∀ kv ∈ l, kv.1 ≠ k := by
  induction l with
  | nil => simp
  | cons p ps ih =>
    by_cases hp : p.1 = k
    · simp [alookup, hp] at h
    · intro kv hkv
      rcases List.mem_cons.mp hkv with h1 | h1
      · subst h1; exact hp
      · exact ih (by simpa [alookup, hp] using h) kv h1

theorem alookup_of_mem_nodup {α : Type} (l : List (String × α)) (kv : String × α)
    (hmem : kv ∈ l) (hnd : (l.map Prod.fst).Nodup) : alookup kv.1 l = some kv.2 := by
  induction l with
  | nil => simp at hmem
  | cons p ps ih =>
    rw [List.map_cons, List.nodup_cons] at hnd
    rcases List.mem_cons.mp hmem with h1 | h1
    · subst h1; simp [alookup]
    · have hp : p.1 ≠ kv.1 := by
        intro he
        exact hnd.1 (he ▸ List.mem_map_of_mem Prod.fst h1)
      simp only [alookup, hp, if_false]
      exact ih h1 hnd.2

theorem alookup_map_by_name (cols : List ColumnSpec) (g : ColumnSpec → Value)
    (c : ColumnSpec) (hmem : c ∈ cols)
    (hnd : (cols.map ColumnSpec.name).Nodup) :
    alookup c.name (cols.map (fun d => (d.name, g d))) = some (g c) := by
  induction cols with
  | nil => simp at hmem
  | cons d ds ih =>
    rw [List.map_cons, List.nodup_cons] at hnd
    rcases List.mem_cons.mp hmem with h1 | h1
    · subst h1; simp [alookup]
    · have hd : d.name ≠ c.name := by
        intro he
        exact hnd.1 (he ▸ List.mem_map_of_mem ColumnSpec.name h1)
      simp only [List.map_cons, alookup, hd, if_false]
      exact ih h1 hnd.2

/-- The WHERE clause `id = ?` matches a stored row exactly when its rowid
is the bound integer. -/
theorem matchesConds_id (x : Int) (r : Int × Row) :
    matchesConds [("id", Value.int x)] r = (r.1 == x) := by
  unfold matchesConds condHolds
  simp only [List.all_cons, List.all_nil, Bool.and_true, if_pos rfl, sqlEq]
  rw [Bool.eq_iff_iff]
  simp

/-- Claim C3: inserting a valid non-empty field mapping and selecting by
the returned id yields exactly one row, whose value at each inserted field
name equals the inserted value (server-generated id and timestamp columns
aside). -/
theorem insert_select_roundtrip
    (db db' : Database) (table : String) (data : Row) (now : String) (rid : Int)
    (t : Table)
    (ht : alookup table db.tables = some t)
    (hndCols : (t.columns.map ColumnSpec.name).Nodup)
    (hndData : (data.map Prod.fst).Nodup)
    (hNoId : alookup "id" data = none)
    (h : insert_record db table data now = Except.ok (db', rid)) :
    ∃ row, select_records db' table [("id", Value.int rid)] none none = Except.ok [row] ∧
      ∀ kv ∈ data, alookup kv.1 row = some kv.2 := by
  obtain ⟨t0, t2, ht0, hexec, hdb⟩ := insert_record_ok db db' table data now rid h
  rw [ht] at ht0
  injection ht0 with ht0
  subst ht0
  obtain ⟨hall, hassign, hnn, hun, hpk, ht2⟩ := execInsert_ok t t2 data now rid hexec
  subst hdb
  refine ⟨selectRow (rid, t.columns.map (fun c => (c.name, rowValueFor data now c))), ?_, ?_⟩
  · unfold select_records
    rw [setTable_lookup_self, ht]
    show (if !(([(("id" : String), Value.int rid)]).all (fun kv => t2.hasColumn kv.1)) = true
        then _ else _) = _
    rw [if_neg (by simp [Table.hasColumn])]
    show Except.ok (applyLimit none ((t2.rows.filter (matchesConds [("id", Value.int rid)])).map selectRow)) = _
    have hfilter : t2.rows.filter (matchesConds [("id", Value.int rid)]) =
        [(rid, t.columns.map (fun c => (c.name, rowValueFor data now c)))] := by
      rw [ht2]
      show (t.rows ++ [(rid, _)]).filter _ = _
      rw [List.filter_append]
      have h1 : t.rows.filter (matchesConds [("id", Value.int rid)]) = [] := by
        rw [List.filter_eq_nil_iff]
        intro a ha
        rw [matchesConds_id]
        have := List.any_eq_false.mp hpk a ha
        simpa using this
      rw [h1]
      simp [matchesConds_id]
    rw [hfilter]
    rfl
  · intro kv hkv
    have hkne : kv.1 ≠ "id" := alookup_none_forall "id" data hNoId kv hkv
    have hmemcol : ∃ c ∈ t.columns, c.name = kv.1 := by
      have hx := List.all_eq_true.mp hall kv hkv
      unfold Table.hasColumn at hx
      rw [Bool.or_eq_true] at hx
      rcases hx with h1 | h1
      · exact absurd (by simpa using h1) hkne
      · rw [List.any_eq_true] at h1
        obtain ⟨c, hcmem, hcn⟩ := h1
        exact ⟨c, hcmem, by simpa using hcn⟩
    obtain ⟨c, hcmem, hcn⟩ := hmemcol
    have hval : rowValueFor data now c = kv.2 := by
      unfold rowValueFor
      rw [hcn, alookup_of_mem_nodup data kv hkv hndData]
    show alookup kv.1 (("id", Value.int rid) ::
      t.columns.map (fun c => (c.name, rowValueFor data now c))) = some kv.2
    rw [alookup, if_neg (fun he => hkne he.symm), ← hcn,
        alookup_map_by_name t.columns (rowValueFor data now) c hcmem hndCols, hval]

/-- The state after inserting the concrete product of the spec scenario. -/
def c3data : Row :=
  [("name", Value.text "Widget"), ("price", Value.real 10), ("category", Value.text "Tools")]

/-- The chapter-7 database after inserting the scenario product. -/
def c3db' : Database := insertState (create_tables emptyDb) "products" c3data "t0"

/-- Claim C3 witness: the round-trip at the concrete scenario product. -/
theorem insert_select_roundtrip_witness :
    ∃ row, select_records c3db' "products" [("id", Value.int 1)] none none = Except.ok [row] ∧
      ∀ kv ∈ c3data, alookup kv.1 row = some kv.2 :=
  insert_select_roundtrip (create_tables emptyDb) c3db' "products" c3data "t0" 1
    { columns := productsColumns, nextId := 1, rows := [] }
    (by rfl) (by decide) (by decide) (by rfl) (by rfl)

/-! ### Claim C5: update keyed on id touches exactly that row -/

/-- With pairwise-distinct rowids, the number of rows matching `id = x` is
1 when some row has rowid x and 0 otherwise. -/
theorem filter_count_by_id (rows : List (Int × Row)) (x : Int)
    (hd : allDistinct (rows.map Prod.fst) = true) :
    (rows.filter (fun r => r.1 == x)).length =
      if rows.any (fun r => r.1 == x) then 1 else 0 := by
  induction rows with
  | nil => rfl
  | cons r rs ih =>
    rw [List.map_cons] at hd
    unfold allDistinct at hd
    rw [Bool.and_eq_true] at hd
    by_cases hx : r.1 = x
    · have hnone : rs.filter (fun r2 => r2.1 == x) = [] := by
        rw [List.filter_eq_nil_iff]
        intro a ha
        have hne := List.all_eq_true.mp hd.1 a.1 (List.mem_map_of_mem Prod.fst ha)
        simp only [beq_iff_eq, Bool.not_eq_true', beq_eq_false_iff_ne] at hne ⊢
        rw [← hx]
        exact fun he => hne he.symm
      rw [List.filter_cons, List.any_cons]
      simp [hx, hnone]
    · have hb : (r.1 == x) = false := beq_eq_false_iff_ne.mpr hx
      simp only [List.filter_cons, List.any_cons, hb, Bool.false_or, Bool.false_eq_true, if_false]
      exact ih hd.2

/-- With no `id` key in the SET mapping, an UPDATE leaves every rowid in
place. -/
theorem updatedRow_fst (data : Row) (r : Int × Row)
    (h : alookup "id" data = none) : (updatedRow data r).1 = r.1 := by
  unfold updatedRow
  rw [h]

/-- Destructuring a successful `update_record` into its component facts. -/
theorem update_record_ok (db db' : Database) (table : String) (data conds : Row)
    (n : Int) (t : Table)
    (ht : alookup table db.tables = some t)
    (h : update_record db table data conds = Except.ok (db', n)) :
    Table.constraintsOk { t with
        rows := t.rows.map (fun r => if matchesConds conds r then updatedRow data r else r) } = true ∧
    db' = db.setTable table { t with
        rows := t.rows.map (fun r => if matchesConds conds r then updatedRow data r else r) } ∧
    n = ((t.rows.filter (matchesConds conds)).length : Int) := by
  unfold update_record at h
  split at h
  · exact absurd h (by simp)
  · split at h
    · exact absurd h (by simp)
    · rename_i t0 ht0
      rw [ht] at ht0
      injection ht0 with ht0
      subst ht0
      split at h
      · exact absurd h (by simp)
      · split at h
        · exact absurd h (by simp)
        · rename_i hok
          injection h with h1
          injection h1 with ha hb
          exact ⟨by simpa using hok, ha.symm, hb.symm⟩

/-- Claim C5: `update(table, fields, {id: X})` (with `fields` not touching
the id) rewrites only the row whose rowid is X — every row with a
different id is present unchanged — and reports `rows_affected` 1 when a
row with id X exists, 0 otherwise. -/
theorem update_by_id_frame
    (db db' : Database) (table : String) (data : Row) (x n : Int) (t : Table)
    (ht : alookup table db.tables = some t)
    (hNoId : alookup "id" data = none)
    (h : update_record db table data [("id", Value.int x)] = Except.ok (db', n)) :
    (∃ t', alookup table db'.tables = some t' ∧
        t'.rows = t.rows.map (fun r => if r.1 = x then updatedRow data r else r) ∧
        ∀ r ∈ t.rows, r.1 ≠ x → r ∈ t'.rows) ∧
    n = (if t.rows.any (fun r => r.1 == x) then 1 else 0) := by
  obtain ⟨hok, hdb, hn⟩ := update_record_ok db db' table data [("id", Value.int x)] n t ht h
  have hrows : t.rows.map (fun r => if matchesConds [("id", Value.int x)] r then updatedRow data r else r) =
      t.rows.map (fun r => if r.1 = x then updatedRow data r else r) := by
    apply List.map_congr_left
    intro r hr
    by_cases hx : r.1 = x
    · rw [if_pos (by rw [matchesConds_id]; exact beq_iff_eq.mpr hx), if_pos hx]
    · rw [if_neg (by rw [matchesConds_id]; simpa using hx), if_neg hx]
  subst hdb
  constructor
  · refine ⟨{ t with rows := (t.rows.map (fun r =>
        if matchesConds [("id", Value.int x)] r then updatedRow data r else r)) },
      ?_, ?_, ?_⟩
    · rw [setTable_lookup_self, ht]
      rfl
    · exact hrows
    · intro r hr hne
      show r ∈ t.rows.map (fun r => if matchesConds [("id", Value.int x)] r then updatedRow data r else r)
      rw [hrows]
      have : (fun r : Int × Row => if r.1 = x then updatedRow data r else r) r = r := if_neg hne
      rw [← this]
      exact List.mem_map_of_mem _ hr
  · rw [hn]
    have hcnt : t.rows.filter (matchesConds [("id", Value.int x)]) =
        t.rows.filter (fun r => r.1 == x) := by
      apply List.filter_congr
      intro r hr
      rw [matchesConds_id]
    rw [hcnt, filter_count_by_id t.rows x ?hd]
    · split <;> rfl
    case hd =>
      -- distinct rowids follow from the successful constraint check,
      -- since the SET mapping leaves every rowid unchanged
      unfold Table.constraintsOk at hok
      rw [Bool.and_eq_true] at hok
      have hfst : (t.rows.map (fun r => if matchesConds [("id", Value.int x)] r then updatedRow data r else r)).map Prod.fst =
          t.rows.map Prod.fst := by
        rw [List.map_map]
        apply List.map_congr_left
        intro r hr
        show (if matchesConds [("id", Value.int x)] r then updatedRow data r else r).1 = r.1
        by_cases hm : matchesConds [("id", Value.int x)] r
        · rw [if_pos hm, updatedRow_fst data r hNoId]
        · rw [if_neg hm]
      have := hok.2
      rw [hfst] at this
      exact this

/-- The chapter-7 database holding users alice (id 1) and bob (id 2). -/
def c5db : Database :=
  insertState (insertState (create_tables emptyDb) "users"
    [("username", Value.text "alice"), ("email", Value.text "a@x.com"),
     ("full_name", Value.text "Alice")] "t0") "users"
    [("username", Value.text "bob"), ("email", Value.text "b@x.com"),
     ("full_name", Value.text "Bob")] "t1"

/-- The SET mapping of the witness update. -/
def c5data : Row := [("full_name", Value.text "Alicia")]

/-- The state after updating user 1's full name. -/
def c5db' : Database := updateState c5db "users" c5data [("id", Value.int 1)]

/-- The users table stored in `c5db`. -/
def c5usersTable : Table :=
  { columns := usersColumns, nextId := 3,
    rows := [(1, [("username", Value.text "alice"), ("email", Value.text "a@x.com"),
                  ("full_name", Value.text "Alice"), ("role", Value.text "user"),
                  ("is_active", Value.int 1), ("created_date", Value.text "t0"),
                  ("last_login", Value.null)]),
             (2, [("username", Value.text "bob"), ("email", Value.text "b@x.com"),
                  ("full_name", Value.text "Bob"), ("role", Value.text "user"),
                  ("is_active", Value.int 1), ("created_date", Value.text "t1"),
                  ("last_login", Value.null)])] }

/-- Claim C5 witness: updating user 1 touches only user 1's row, keeps
bob's row byte-for-byte, and reports one affected row. -/
theorem update_by_id_frame_witness :
    (∃ t', alookup "users" c5db'.tables = some t' ∧
        t'.rows = c5usersTable.rows.map
          (fun r => if r.1 = 1 then updatedRow c5data r else r) ∧
        ∀ r ∈ c5usersTable.rows, r.1 ≠ 1 → r ∈ t'.rows) ∧
    (1 : Int) = (if c5usersTable.rows.any (fun r => r.1 == 1) then 1 else 0) :=
  update_by_id_frame c5db c5db' "users" c5data 1 1 c5usersTable (by rfl) (by rfl) (by rfl)

/-! ### Claim C7: stored order totals survive product updates -/

/-- The chapter-7 database after inserting a product priced 100. -/
def c7db1 : Database :=
  insertState (create_tables emptyDb) "products"
    [("name", Value.text "Widget"), ("price", Value.real 100)] "t0"

/-- ... then recording an order of quantity 2 with stored total 200. -/
def c7db2 : Database :=
  insertState c7db1 "orders"
    [("user_id", Value.int 1), ("product_id", Value.int 1),
     ("quantity", Value.int 2), ("total_price", Value.real 200)] "t1"

/-- ... then updating the product's price to 150. -/
def c7db3 : Database :=
  updateState c7db2 "products" [("price", Value.real 150)] [("id", Value.int 1)]

/-- The order row as re-selected after the price update. -/
def c7orderRow : Row :=
  [("id", Value.int 1), ("user_id", Value.int 1), ("product_id", Value.int 1),
   ("quantity", Value.int 2), ("total_price", Value.real 200),
   ("order_date", Value.text "t1"), ("status", Value.text "pending")]

/-- The product row as re-selected after the price update. -/
def c7productRow : Row :=
  [("id", Value.int 1), ("name", Value.text "Widget"), ("description", Value.null),
   ("price", Value.real 150), ("category", Value.null), ("stock_quantity", Value.int 0),
   ("created_date", Value.text "t0"), ("updated_date", Value.text "t0")]

/-- Claim C7: a stored order total is immutable under product updates — no
`update_record` on the `products` table changes any row of the `orders`
table — and concretely: product inserted at price 100, order of quantity 2
stored with total 200, product price updated to 150, re-selecting the
order still yields total 200 (and the product row shows 150). -/
theorem order_total_immutable :
    (∀ (db : Database) (data conds : Row) (db' : Database) (n : Int),
        update_record db "products" data conds = Except.ok (db', n) →
        alookup "orders" db'.tables = alookup "orders" db.tables) ∧
    select_records c7db3 "orders" [("id", Value.int 1)] none none = Except.ok [c7orderRow] ∧
    alookup "total_price" c7orderRow = some (Value.real 200) ∧
    some (Value.real 200) ≠ some (Value.real 300) ∧
    select_records c7db3 "products" [("id", Value.int 1)] none none = Except.ok [c7productRow] := by
  refine ⟨?_, rfl, rfl, by decide, rfl⟩
  intro db data conds db' n h
  unfold update_record at h
  split at h
  · exact absurd h (by simp)
  · split at h
    · exact absurd h (by simp)
    · split at h
      · exact absurd h (by simp)
      · split at h
        · exact absurd h (by simp)
        · injection h with h1
          injection h1 with ha hb
          rw [← ha]
          exact setTable_lookup_ne db "products" "orders" _ (by decide)

/-- Claim C7 witness: the frame conjunct applied at the concrete scenario
update (price 100 → 150), discharging its hypothesis there. -/
theorem order_total_immutable_witness :
    alookup "orders" c7db3.tables = alookup "orders" c7db2.tables :=
  order_total_immutable.1 c7db2 [("price", Value.real 150)] [("id", Value.int 1)]
    c7db3 1 (by rfl)

/-! ### Claim C9: dangling foreign keys and the dashboard's inner join -/

theorem mem_insertBy (le : Row → Row → Bool) (x y : Row) (l : List Row) :
    y ∈ insertBy le x l ↔ y = x ∨ y ∈ l := by
  induction l with
  | nil => simp [insertBy]
  | cons z zs ih =>
    unfold insertBy
    split
    · simp [List.mem_cons]
    · rw [List.mem_cons, ih, List.mem_cons]
      tauto

theorem mem_sortBy (le : Row → Row → Bool) (y : Row) (l : List Row) :
    y ∈ sortBy le l ↔ y ∈ l := by
  induction l with
  | nil => simp [sortBy]
  | cons z zs ih =>
    unfold sortBy
    rw [mem_insertBy, ih, List.mem_cons]

/-- Claim C9 counterexample: a database whose single order references
user id 99, which does not exist (the referenced row is absent), while
product 1 exists. -/
def c9db : Database :=
  insertState (insertState (insertState (dd_create_tables emptyDb) "users"
      [("name", Value.text "John"), ("email", Value.text "j@x.com")] "t0")
    "products"
      [("name", Value.text "Laptop"), ("category", Value.text "Electronics"),
       ("price", Value.real 999)] "t0")
    "orders"
      [("user_id", Value.int 99), ("product_id", Value.int 1),
       ("quantity", Value.int 1), ("total_price", Value.real 999)] "t1"

/-- Claim C9 counterexample: the orders table holds one order whose user
reference is dangling, yet the joined recent-orders query returns an
empty result — the order row is absent from the joined view, contradicting
the claim that it would still be returned. -/
theorem dangling_fk_order_omitted_cex :
    (alookup "orders" c9db.tables).map (fun t => t.rows.length) = some 1 ∧
    refresh_orders_query c9db = Except.ok [] :=
  ⟨rfl, rfl⟩

/-- Claim C9 (amended): the joined query never raises — it returns a
result whenever the three tables exist — but it is an INNER join: every
row of the joined view comes from an order both of whose references
resolve to existing rows, so an order with a dangling user or product
reference is silently omitted rather than null-coalesced. -/
theorem inner_join_skips_dangling_fk (db : Database) (o u p : Table)
    (ho : alookup "orders" db.tables = some o)
    (hu : alookup "users" db.tables = some u)
    (hp : alookup "products" db.tables = some p) :
    ∃ l, refresh_orders_query db = Except.ok l ∧
      ∀ row ∈ l, ∃ orow ∈ o.rows, ∃ ur ∈ u.rows, ∃ pr ∈ p.rows,
        fkMatches (alookup "user_id" orow.2) ur.1 = true ∧
        fkMatches (alookup "product_id" orow.2) pr.1 = true ∧
        row = joinedOrderRow orow ur pr := by
  refine ⟨sortBy (fun r1 r2 =>
      Value.leb ((alookup "order_date" r2).getD Value.null)
        ((alookup "order_date" r1).getD Value.null)) (innerJoinOrders o u p), ?_, ?_⟩
  · unfold refresh_orders_query
    rw [ho, hu, hp]
  · intro row hrow
    rw [mem_sortBy] at hrow
    unfold innerJoinOrders at hrow
    rw [List.mem_flatMap] at hrow
    obtain ⟨orow, horow, hrow⟩ := hrow
    rw [List.mem_flatMap] at hrow
    obtain ⟨ur, hur, hrow⟩ := hrow
    rw [List.mem_map] at hrow
    obtain ⟨pr, hpr, heq⟩ := hrow
    rw [List.mem_filter] at hur hpr
    exact ⟨orow, horow, ur, hur.1, pr, hpr.1, hur.2, hpr.2, heq.symm⟩

/-- The users table of `c9db` (John only — no user 99). -/
def c9users : Table :=
  { columns := ddUsersColumns, nextId := 2,
    rows := [(1, [("name", Value.text "John"), ("email", Value.text "j@x.com"),
                  ("role", Value.text "user"), ("created_date", Value.text "t0")])] }

/-- The products table of `c9db`. -/
def c9products : Table :=
  { columns := ddProductsColumns, nextId := 2,
    rows := [(1, [("name", Value.text "Laptop"), ("category", Value.text "Electronics"),
                  ("price", Value.real 999), ("stock", Value.int 0),
                  ("created_date", Value.text "t0")])] }

/-- The orders table of `c9db` (its single order references user 99). -/
def c9orders : Table :=
  { columns := ddOrdersColumns, nextId := 2,
    rows := [(1, [("user_id", Value.int 99), ("product_id", Value.int 1),
                  ("quantity", Value.int 1), ("total_price", Value.real 999),
                  ("order_date", Value.text "t1")])] }

/-- Claim C9 witness: the amended statement at the concrete dangling-FK
database. -/
theorem inner_join_skips_dangling_fk_witness :
    ∃ l, refresh_orders_query c9db = Except.ok l ∧
      ∀ row ∈ l, ∃ orow ∈ c9orders.rows, ∃ ur ∈ c9users.rows, ∃ pr ∈ c9products.rows,
        fkMatches (alookup "user_id" orow.2) ur.1 = true ∧
        fkMatches (alookup "product_id" orow.2) pr.1 = true ∧
        row = joinedOrderRow orow ur pr :=
  inner_join_skips_dangling_fk c9db c9orders c9users c9products (by rfl) (by rfl) (by rfl)

end Dashboards
